import Mathlib

/-!
Shallow embedding of `src/snap_it.py` (the Snap-It snapper GUI) and
verification of the specification's claims about its single handler,
`SnapperGUI.take_snapshot`.

The handler reads the description field, validates it, runs three external
`snapper` commands via `subprocess.run`, parses their text output, and shows
dialogs / updates widgets.  We embed it as a pure function from the input
text and an environment (the results the three external processes would
produce) to a trace of UI/process events plus a final outcome.
-/

namespace SnapIt

/-- Python `\d` on the ASCII text snapper emits: the characters 0-9. -/
def isPyDigit (c : Char) : Bool := decide ('0' ≤ c) && decide (c ≤ '9')

/-- Python `\s` / `str.strip` whitespace, ASCII range: space, tab, newline,
carriage return, vertical tab, form feed. -/
def isPySpace (c : Char) : Bool :=
  c = ' ' || c = '\t' || c = '\n' || c = '\r' || c = '\x0b' || c = '\x0c'

/-- The character class `[KMGTP]` of the size regex in `take_snapshot`. -/
def isUnitChar (c : Char) : Bool :=
  c = 'K' || c = 'M' || c = 'G' || c = 'T' || c = 'P'

/-- Python `str.strip()` on a list of characters: drop whitespace from both
ends. -/
def pyStripList (cs : List Char) : List Char :=
  ((cs.dropWhile isPySpace).reverse.dropWhile isPySpace).reverse

/-- Python `str.strip()`. -/
def pyStrip (s : String) : String := ⟨pyStripList s.toList⟩

/-- Python `s.startswith(p)`. -/
def pyStartswith (s p : String) : Bool := List.isPrefixOf p.toList s.toList

/-- Python `needle in hay` on strings: substring containment. -/
def listContainsSub (needle hay : List Char) : Bool :=
  hay.tails.any fun t => needle.isPrefixOf t

/-- Python `needle in hay` on strings. -/
def strContains (hay needle : String) : Bool :=
  listContainsSub needle.toList hay.toList

/-- Python `str.split(sep)` for a one-character separator, on character
lists: the result always has one more part than there are separators. -/
def splitOnCharList (sep : Char) : List Char → List (List Char)
  | [] => [[]]
  | c :: rest =>
    let r := splitOnCharList sep rest
    if c = sep then [] :: r
    else (c :: r.headD []) :: r.tail

/-- Python `str.split(sep)` for a one-character separator. -/
def pySplit (sep : Char) (s : String) : List String :=
  (splitOnCharList sep s.toList).map fun l => ⟨l⟩

/-!
The size regex of `take_snapshot` line 141:
`re.search(r'(\d+\.?\d*\s*[KMGTP]?i?B)', line)`.

`matchTail` matches the suffix `\s*[KMGTP]?i?B` at the head of the list.
Greedy matching with backtracking is deterministic here because the
character classes `\s`, `[KMGTP]`, `i` and `B` are pairwise disjoint, so a
quantifier that matched greedily and then failed can never succeed by
matching less.  It returns the consumed characters.
-/

/-- Match `[KMGTP]?i?B` at the head of `d`, returning the consumed
characters (Python greedy semantics: the unit letter and the `i` are taken
when taking them lets `B` match). -/
def matchUnitPart (d : List Char) : Option (List Char) :=
  match d with
  | [] => none
  | c1 :: d1 =>
    if c1 = 'B' then some ['B']
    else if c1 = 'i' then
      if d1.head? = some 'B' then some ['i', 'B'] else none
    else if isUnitChar c1 then
      if d1.head? = some 'B' then some [c1, 'B']
      else if d1.head? = some 'i' ∧ d1.tail.head? = some 'B' then
        some [c1, 'i', 'B']
      else none
    else none

/-- Match `\s*[KMGTP]?i?B` at the head of `cs`, returning the consumed
characters. -/
def matchTail (cs : List Char) : Option (List Char) :=
  (matchUnitPart (cs.dropWhile isPySpace)).map
    fun u => cs.takeWhile isPySpace ++ u

/-- Match the whole size regex `\d+\.?\d*\s*[KMGTP]?i?B` at the head of
`cs`, returning the matched characters.  Backtracking over `\d+\.?\d*` is
again deterministic: shrinking `\d+` or `\d*` leaves a digit at the front of
the tail (which `matchTail` rejects), and dropping a present `.` leaves a
dot there. -/
def matchSizeAt (cs : List Char) : Option (List Char) :=
  if (cs.takeWhile isPyDigit).isEmpty then none
  else if (cs.dropWhile isPyDigit).head? = some '.' then
    (matchTail ((cs.dropWhile isPyDigit).tail.dropWhile isPyDigit)).map
      fun t => cs.takeWhile isPyDigit ++
        '.' :: ((cs.dropWhile isPyDigit).tail.takeWhile isPyDigit ++ t)
  else
    (matchTail (cs.dropWhile isPyDigit)).map
      fun t => cs.takeWhile isPyDigit ++ t

/-- Python `re.search`: try the pattern at each position, leftmost first. -/
def searchSizeAux : List Char → Option (List Char)
  | [] => none
  | c :: rest =>
    match matchSizeAt (c :: rest) with
    | some m => some m
    | none => searchSizeAux rest

/-- The `size_match.group(1)` of `take_snapshot`: the leftmost match of the
size regex in `line`, if any. -/
def searchSize (line : String) : Option String :=
  (searchSizeAux line.toList).map fun m => ⟨m⟩

/-!
Output parsing of `take_snapshot`, lines 112-124 and 138-144:
subvolume extraction from the `snapper get-config` table and size
extraction from the `snapper list -t single` table.
-/

/-- Loop of lines 113-119, over `config_result.stdout.split('\n')`: the
first line containing `SUBVOLUME` whose split on `│` has at least two
parts yields the stripped second part; a `SUBVOLUME` line with fewer parts
is skipped (no `break` is reached there). -/
def findSubvolumeLines : List String → Option String
  | [] => none
  | l :: rest =>
    if strContains l "SUBVOLUME" then
      let parts := pySplit '│' l
      if 2 ≤ parts.length then some (pyStrip (parts.getD 1 ""))
      else findSubvolumeLines rest
    else findSubvolumeLines rest

/-- Subvolume extraction from the whole `get-config` stdout. -/
def findSubvolume (out : String) : Option String :=
  findSubvolumeLines (pySplit '\n' out)

/-- Loop of lines 138-144, over `details_result.stdout.split('\n')`:
`size` starts as `"Unknown"`; the first line whose stripped form starts
with the snapshot number is searched for the size regex, and the loop
breaks there whether or not the regex matched. -/
def findSizeLines (num : String) : List String → String
  | [] => "Unknown"
  | l :: rest =>
    if pyStartswith (pyStrip l) num then
      match searchSize l with
      | some tok => tok
      | none => "Unknown"
    else findSizeLines num rest

/-- Size extraction from the whole `snapper list -t single` stdout. -/
def findSize (num out : String) : String :=
  findSizeLines num (pySplit '\n' out)

/-!
The handler itself.  External processes are modelled by an environment
giving, for each of the three `subprocess.run` invocations, the result it
would produce if issued: whether it exits zero (`check=True` raises
`CalledProcessError` otherwise) and its captured stdout and stderr.
-/

/-- Result of one `subprocess.run(..., check=True, capture_output=True,
text=True)` call: `ok` is "exited with status zero". -/
structure ProcResult where
  ok : Bool
  stdout : String
  stderr : String
deriving DecidableEq, Repr

/-- Results the three external commands would produce, in program order. -/
structure Env where
  createRes : ProcResult
  configRes : ProcResult
  listRes : ProcResult
deriving DecidableEq, Repr

/-- Argument vector of the `snapper create` call (line 91). -/
def cmdCreate (comment : String) : List String :=
  ["sudo", "snapper", "create", "--description", comment,
   "--type", "single", "--print-number"]

/-- Argument vector of the `snapper get-config` call (line 106). -/
def cmdGetConfig : List String := ["sudo", "snapper", "get-config"]

/-- Argument vector of the `snapper list -t single` call (line 132). -/
def cmdList : List String := ["sudo", "snapper", "list", "-t", "single"]

/-- Observable UI and process actions of one `take_snapshot` invocation,
in the order the Python statements perform them. -/
inductive Event where
  | setStatus (msg : String)
  | setEnabled (b : Bool)
  | runCmd (args : List String)
  | warnDialog (title msg : String)
  | infoDialog (title msg : String)
  | criticalDialog (title msg : String)
  | clearInput
deriving DecidableEq, Repr

/-- How one invocation of the handler ends. -/
inductive Outcome where
  | validationError
  | processError (msg : String)
  | genericError (msg : String)
  | success (msg : String)
deriving DecidableEq, Repr

/-- Trace and outcome of one `take_snapshot` invocation. -/
structure RunResult where
  events : List Event
  outcome : Outcome
deriving DecidableEq, Repr

/-- Events of the two `except` blocks (lines 164-181): status message,
critical dialog, then the `finally` re-enable of the button. -/
def errorEvents (msg : String) : List Event :=
  [Event.setStatus "Error creating snapshot",
   Event.criticalDialog "Error" msg,
   Event.setEnabled true]

/-- Message of the `CalledProcessError` handler (line 165). -/
def procErrorMsg (stderr : String) : String :=
  "Failed to create snapshot. Error: " ++ stderr

/-- Message of the generic `Exception` handler (line 174). -/
def genErrorMsg (msg : String) : String :=
  "An unexpected error occurred: " ++ msg

/-- The success dialog text composed at lines 148-152. -/
def successMsg (num size path : String) : String :=
  "Snapshot #" ++ num ++ " created successfully!\n\n" ++
  "Size: " ++ size ++ "\nLocation: " ++ path

/-- Shallow embedding of `SnapperGUI.take_snapshot` (lines 73-183).
`inputText` is the current text of the description field; `env` gives the
results of the external calls. -/
def take_snapshot (inputText : String) (env : Env) : RunResult :=
  let comment := pyStrip inputText
  if comment = "" then
    { events := [Event.warnDialog "Warning"
        "Please enter a description for the snapshot."],
      outcome := Outcome.validationError }
  else
    let pre1 := [Event.setStatus "Creating snapshot...",
                 Event.setEnabled false,
                 Event.runCmd (cmdCreate comment)]
    if env.createRes.ok = false then
      { events := pre1 ++ errorEvents (procErrorMsg env.createRes.stderr),
        outcome := Outcome.processError (procErrorMsg env.createRes.stderr) }
    else
      let snapshot_num := pyStrip env.createRes.stdout
      if snapshot_num = "" then
        { events := pre1 ++ errorEvents (genErrorMsg "Failed to get snapshot number"),
          outcome := Outcome.genericError (genErrorMsg "Failed to get snapshot number") }
      else
        let pre2 := pre1 ++ [Event.runCmd cmdGetConfig]
        if env.configRes.ok = false then
          { events := pre2 ++ errorEvents (procErrorMsg env.configRes.stderr),
            outcome := Outcome.processError (procErrorMsg env.configRes.stderr) }
        else
          let subvolume := (findSubvolume env.configRes.stdout).getD ""
          if subvolume = "" then
            { events := pre2 ++ errorEvents (genErrorMsg "Failed to get subvolume path"),
              outcome := Outcome.genericError (genErrorMsg "Failed to get subvolume path") }
          else
            let snapshot_path := subvolume ++ "/.snapshots/" ++ snapshot_num ++ "/snapshot"
            let pre3 := pre2 ++ [Event.runCmd cmdList]
            if env.listRes.ok = false then
              { events := pre3 ++ errorEvents (procErrorMsg env.listRes.stderr),
                outcome := Outcome.processError (procErrorMsg env.listRes.stderr) }
            else
              let size := findSize snapshot_num env.listRes.stdout
              let msg := successMsg snapshot_num size snapshot_path
              { events := pre3 ++
                  [Event.setStatus "Snapshot created successfully",
                   Event.infoDialog "Success" msg,
                   Event.clearInput,
                   Event.setEnabled true],
                outcome := Outcome.success msg }

/-- External commands issued during a trace, in order. -/
def commandsOf (evs : List Event) : List (List String) :=
  evs.filterMap fun e =>
    match e with
    | Event.runCmd c => some c
    | _ => none

/-- Text of the description field after the trace, starting from `init`. -/
def finalInput (init : String) (evs : List Event) : String :=
  evs.foldl (fun s e =>
    match e with
    | Event.clearInput => ""
    | _ => s) init

/-- Enabled state of the button after the trace, starting from `init`. -/
def finalEnabled (init : Bool) (evs : List Event) : Bool :=
  evs.foldl (fun b e =>
    match e with
    | Event.setEnabled b2 => b2
    | _ => b) init

/-- Walk the trace tracking the button state (initially `b`) and check
that every external command runs while the button is disabled. -/
def cmdsRunDisabled : Bool → List Event → Bool
  | _, [] => true
  | _, Event.setEnabled b2 :: rest => cmdsRunDisabled b2 rest
  | b, Event.runCmd _ :: rest => !b && cmdsRunDisabled b rest
  | b, _ :: rest => cmdsRunDisabled b rest

/-- Decide whether an outcome is the success outcome. -/
def Outcome.isSuccess : Outcome → Bool
  | Outcome.success _ => true
  | _ => false

/-- Configuration line the subvolume loop stops at: it contains the token
`SUBVOLUME` and splits on `│` into at least two columns. -/
def wfConfigLine (l : String) : Bool :=
  strContains l "SUBVOLUME" && decide (2 ≤ (pySplit '│' l).length)

/-- Anchored, whole-string form of the tail `\s*[KMGTP]?i?B` of the size
regex, written independently of the matcher. -/
def isTailToken (cs : List Char) : Bool :=
  match cs.dropWhile isPySpace with
  | ['B'] => true
  | ['i', 'B'] => true
  | [c, 'B'] => isUnitChar c
  | [c, 'i', 'B'] => isUnitChar c
  | _ => false

/-- Anchored, whole-string form of the size-token grammar
`\d+\.?\d*\s*[KMGTP]?i?B`: digits, an optional decimal part, optional
whitespace, an optional K/M/G/T/P unit letter, an optional `i`, then `B`,
consuming the entire string. -/
def isSizeToken (s : String) : Bool :=
  if (s.toList.takeWhile isPyDigit).isEmpty then false
  else if (s.toList.dropWhile isPyDigit).head? = some '.' then
    isTailToken ((s.toList.dropWhile isPyDigit).tail.dropWhile isPyDigit)
  else
    isTailToken (s.toList.dropWhile isPyDigit)

/-!
Facts about the size matcher: whatever it returns satisfies the anchored
size-token grammar and occurs in the searched line.
-/

/-- Whitespace characters are neither digits nor the dot. -/
theorem isPySpace_facts {c : Char} (h : isPySpace c = true) :
    isPyDigit c = false ∧ c ≠ '.' := by
  simp only [isPySpace, Bool.or_eq_true, decide_eq_true_eq] at h
  rcases h with ((((h | h) | h) | h) | h) | h <;> subst h <;>
    exact ⟨by decide, by decide⟩

/-- Unit letters are not digits, dots, whitespace, `B` or `i`. -/
theorem isUnitChar_facts {c : Char} (h : isUnitChar c = true) :
    isPyDigit c = false ∧ c ≠ '.' ∧ isPySpace c = false ∧ c ≠ 'B' ∧ c ≠ 'i' := by
  simp only [isUnitChar, Bool.or_eq_true, decide_eq_true_eq] at h
  rcases h with (((h | h) | h) | h) | h <;> subst h <;>
    exact ⟨by decide, by decide, by decide, by decide, by decide⟩

/-- Shape of a successful `[KMGTP]?i?B` match: the consumed characters take
one of the four unit forms and are an initial segment of the input. -/
theorem matchUnitPart_spec {d u : List Char} (h : matchUnitPart d = some u) :
    (u = ['B'] ∨ u = ['i', 'B'] ∨
      ∃ c, isUnitChar c = true ∧ (u = [c, 'B'] ∨ u = [c, 'i', 'B'])) ∧
    ∃ r, d = u ++ r := by
  match d with
  | [] => simp [matchUnitPart] at h
  | c1 :: d1 =>
    rw [matchUnitPart] at h
    by_cases h1 : c1 = 'B'
    · subst h1
      rw [if_pos rfl, Option.some.injEq] at h
      subst h
      exact ⟨Or.inl rfl, d1, rfl⟩
    · by_cases h2 : c1 = 'i'
      · subst h2
        rw [if_neg h1, if_pos rfl] at h
        by_cases hb : d1.head? = some 'B'
        · rw [if_pos hb, Option.some.injEq] at h
          subst h
          obtain ⟨d2, rfl⟩ := List.head?_eq_some_iff.mp hb
          exact ⟨Or.inr (Or.inl rfl), d2, rfl⟩
        · rw [if_neg hb] at h
          exact absurd h (by simp)
      · by_cases h3 : isUnitChar c1 = true
        · rw [if_neg h1, if_neg h2, if_pos h3] at h
          by_cases hb : d1.head? = some 'B'
          · rw [if_pos hb, Option.some.injEq] at h
            subst h
            obtain ⟨d2, rfl⟩ := List.head?_eq_some_iff.mp hb
            exact ⟨Or.inr (Or.inr ⟨c1, h3, Or.inl rfl⟩), d2, rfl⟩
          · rw [if_neg hb] at h
            by_cases hib : d1.head? = some 'i' ∧ d1.tail.head? = some 'B'
            · rw [if_pos hib, Option.some.injEq] at h
              subst h
              obtain ⟨d2, hd2⟩ := List.head?_eq_some_iff.mp hib.1
              obtain ⟨d3, hd3⟩ := List.head?_eq_some_iff.mp hib.2
              rw [hd2] at hd3 ⊢
              simp only [List.tail_cons] at hd3
              rw [hd3]
              exact ⟨Or.inr (Or.inr ⟨c1, h3, Or.inr rfl⟩), d3, rfl⟩
            · rw [if_neg hib] at h
              exact absurd h (by simp)
        · rw [if_neg h1, if_neg h2, if_neg h3] at h
          exact absurd h (by simp)

/-- Spec of `matchTail`: the consumed characters satisfy the anchored tail
grammar, form an initial segment of the input, and start with a character
that is neither a digit nor a dot. -/
theorem matchTail_spec {cs t : List Char} (h : matchTail cs = some t) :
    isTailToken t = true ∧ (∃ r, cs = t ++ r) ∧
    ∀ c, t.head? = some c → isPyDigit c = false ∧ c ≠ '.' := by
  unfold matchTail at h
  cases hu : matchUnitPart (cs.dropWhile isPySpace) with
  | none => rw [hu] at h; exact absurd h (by simp)
  | some u =>
    rw [hu] at h
    simp only [Option.map_some', Option.some.injEq] at h
    subst h
    obtain ⟨hforms, r, hdr⟩ := matchUnitPart_spec hu
    have hws : ∀ a ∈ cs.takeWhile isPySpace, isPySpace a :=
      fun a ha => List.mem_takeWhile_imp ha
    refine ⟨?_, ?_, ?_⟩
    · unfold isTailToken
      rw [List.dropWhile_append_of_pos hws]
      rcases hforms with rfl | rfl | ⟨c, hc, rfl | rfl⟩
      · decide
      · decide
      · simp only [isUnitChar, Bool.or_eq_true, decide_eq_true_eq] at hc
        rcases hc with (((hc | hc) | hc) | hc) | hc <;> subst hc <;> decide
      · simp only [isUnitChar, Bool.or_eq_true, decide_eq_true_eq] at hc
        rcases hc with (((hc | hc) | hc) | hc) | hc <;> subst hc <;> decide
    · refine ⟨r, ?_⟩
      conv_lhs => rw [← List.takeWhile_append_dropWhile isPySpace cs]
      rw [hdr, List.append_assoc]
    · intro c hc
      cases hws2 : cs.takeWhile isPySpace with
      | nil =>
        rw [hws2] at hc
        simp only [List.nil_append] at hc
        rcases hforms with rfl | rfl | ⟨c2, hc2, rfl | rfl⟩ <;>
          simp only [List.head?_cons, Option.some.injEq] at hc <;> subst hc
        · exact ⟨by decide, by decide⟩
        · exact ⟨by decide, by decide⟩
        · exact ⟨(isUnitChar_facts hc2).1, (isUnitChar_facts hc2).2.1⟩
        · exact ⟨(isUnitChar_facts hc2).1, (isUnitChar_facts hc2).2.1⟩
      | cons w ws2 =>
        rw [hws2] at hc
        simp only [List.cons_append, List.head?_cons, Option.some.injEq] at hc
        rcases hc with rfl
        exact isPySpace_facts (hws _ (by rw [hws2]; exact List.mem_cons_self _ _))

/-- Spec of `matchSizeAt`: a successful match at a position satisfies the
anchored size-token grammar and is an initial segment of the input. -/
theorem matchSizeAt_spec {cs m : List Char} (h : matchSizeAt cs = some m) :
    isSizeToken ⟨m⟩ = true ∧ ∃ r, cs = m ++ r := by
  unfold matchSizeAt at h
  by_cases hds : (cs.takeWhile isPyDigit).isEmpty
  · rw [if_pos hds] at h; exact absurd h (by simp)
  · rw [if_neg hds] at h
    have hdig : ∀ a ∈ cs.takeWhile isPyDigit, isPyDigit a :=
      fun a ha => List.mem_takeWhile_imp ha
    by_cases hdot : (cs.dropWhile isPyDigit).head? = some '.'
    · rw [if_pos hdot] at h
      obtain ⟨rest2, hrest⟩ := List.head?_eq_some_iff.mp hdot
      cases hmt : matchTail ((cs.dropWhile isPyDigit).tail.dropWhile isPyDigit) with
      | none => rw [hmt] at h; exact absurd h (by simp)
      | some t =>
        rw [hmt, Option.map_some', Option.some.injEq] at h
        subst h
        obtain ⟨htt, ⟨r, hr⟩, hhead⟩ := matchTail_spec hmt
        have hdig2 : ∀ a ∈ (cs.dropWhile isPyDigit).tail.takeWhile isPyDigit, isPyDigit a :=
          fun a ha => List.mem_takeWhile_imp ha
        have htne : t ≠ [] := by
          intro hte
          rw [hte] at htt
          exact absurd htt (by decide)
        have hdwt : t.dropWhile isPyDigit = t := by
          cases t with
          | nil => rfl
          | cons c t2 =>
            exact List.dropWhile_cons_of_neg (by
              simp only [(hhead c (by rfl)).1, Bool.false_eq_true, not_false_eq_true])
        have h3 : (cs.dropWhile isPyDigit).tail =
            (cs.dropWhile isPyDigit).tail.takeWhile isPyDigit ++ (t ++ r) := by
          conv_lhs => rw [← List.takeWhile_append_dropWhile isPyDigit
            ((cs.dropWhile isPyDigit).tail), hr]
        constructor
        · unfold isSizeToken
          have h1 : (String.mk (cs.takeWhile isPyDigit ++
              '.' :: ((cs.dropWhile isPyDigit).tail.takeWhile isPyDigit ++ t))).toList =
              cs.takeWhile isPyDigit ++
              '.' :: ((cs.dropWhile isPyDigit).tail.takeWhile isPyDigit ++ t) := rfl
          rw [h1]
          have e1 : (cs.takeWhile isPyDigit ++
              '.' :: ((cs.dropWhile isPyDigit).tail.takeWhile isPyDigit ++ t)).takeWhile
                isPyDigit = cs.takeWhile isPyDigit := by
            rw [List.takeWhile_append_of_pos hdig,
              List.takeWhile_cons_of_neg (by decide), List.append_nil]
          have e2 : (cs.takeWhile isPyDigit ++
              '.' :: ((cs.dropWhile isPyDigit).tail.takeWhile isPyDigit ++ t)).dropWhile
                isPyDigit = '.' :: ((cs.dropWhile isPyDigit).tail.takeWhile isPyDigit ++ t) := by
            rw [List.dropWhile_append_of_pos hdig,
              List.dropWhile_cons_of_neg (by decide)]
          rw [e1, e2, if_neg hds, if_pos (show (('.' :: _ : List Char)).head? = some '.' from rfl),
            List.tail_cons, List.dropWhile_append_of_pos hdig2, hdwt]
          exact htt
        · refine ⟨r, ?_⟩
          conv_lhs => rw [← List.takeWhile_append_dropWhile isPyDigit cs, hrest]
          have h4 : rest2 = (cs.dropWhile isPyDigit).tail := by
            rw [hrest, List.tail_cons]
          rw [h4, h3]
          simp only [List.append_assoc, List.cons_append, List.append_cancel_left_eq,
            List.cons.injEq, true_and]
          rw [List.takeWhile_append_of_pos hdig2]
          cases t with
          | nil => exact absurd rfl htne
          | cons c t2 =>
            rw [List.cons_append, List.takeWhile_cons_of_neg (by
              simp only [(hhead c rfl).1, Bool.false_eq_true, not_false_eq_true]),
              List.append_nil]
    · rw [if_neg hdot] at h
      cases hmt : matchTail (cs.dropWhile isPyDigit) with
      | none => rw [hmt] at h; exact absurd h (by simp)
      | some t =>
        rw [hmt, Option.map_some', Option.some.injEq] at h
        subst h
        obtain ⟨htt, ⟨r, hr⟩, hhead⟩ := matchTail_spec hmt
        have htne : t ≠ [] := by
          intro hte
          rw [hte] at htt
          exact absurd htt (by decide)
        obtain ⟨c, t2, hct⟩ : ∃ c t2, t = c :: t2 := by
          cases t with
          | nil => exact absurd rfl htne
          | cons c t2 => exact ⟨c, t2, rfl⟩
        have hcd : isPyDigit c = false := (hhead c (by rw [hct]; rfl)).1
        have hcdot : c ≠ '.' := (hhead c (by rw [hct]; rfl)).2
        constructor
        · unfold isSizeToken
          have h1 : (String.mk (cs.takeWhile isPyDigit ++ t)).toList =
              cs.takeWhile isPyDigit ++ t := rfl
          rw [h1]
          have e1 : (cs.takeWhile isPyDigit ++ t).takeWhile isPyDigit =
              cs.takeWhile isPyDigit := by
            rw [List.takeWhile_append_of_pos hdig, hct,
              List.takeWhile_cons_of_neg (by simp only [hcd, Bool.false_eq_true,
                not_false_eq_true]), List.append_nil]
          have e2 : (cs.takeWhile isPyDigit ++ t).dropWhile isPyDigit = t := by
            rw [List.dropWhile_append_of_pos hdig, hct,
              List.dropWhile_cons_of_neg (by simp only [hcd, Bool.false_eq_true,
                not_false_eq_true])]
          rw [e1, e2, if_neg hds, if_neg (by
            rw [hct, List.head?_cons, Option.some.injEq]
            exact hcdot)]
          exact htt
        · refine ⟨r, ?_⟩
          conv_lhs => rw [← List.takeWhile_append_dropWhile isPyDigit cs, hr]
          rw [List.append_assoc]

/-- Spec of `searchSizeAux`: a found match satisfies the grammar and occurs
in the searched character list. -/
theorem searchSizeAux_spec {cs m : List Char} (h : searchSizeAux cs = some m) :
    isSizeToken ⟨m⟩ = true ∧ ∃ l r, cs = l ++ (m ++ r) := by
  induction cs with
  | nil => simp [searchSizeAux] at h
  | cons c rest ih =>
    rw [searchSizeAux] at h
    cases hma : matchSizeAt (c :: rest) with
    | some m2 =>
      rw [hma] at h
      simp only [Option.some.injEq] at h
      subst h
      obtain ⟨htok, r, hr⟩ := matchSizeAt_spec hma
      exact ⟨htok, [], r, hr⟩
    | none =>
      rw [hma] at h
      simp only [] at h
      obtain ⟨htok, l, r, hlr⟩ := ih h
      exact ⟨htok, c :: l, r, by rw [List.cons_append, ← hlr]⟩

/-- Spec of `searchSize`: an extracted token satisfies the size-token
grammar and occurs in the line it was extracted from. -/
theorem searchSize_spec {line tok : String} (h : searchSize line = some tok) :
    isSizeToken tok = true ∧ strContains line tok = true := by
  unfold searchSize at h
  cases hs : searchSizeAux line.toList with
  | none => rw [hs] at h; exact absurd h (by simp)
  | some m =>
    rw [hs] at h
    simp only [Option.map_some', Option.some.injEq] at h
    subst h
    obtain ⟨htok, l, r, hlr⟩ := searchSizeAux_spec hs
    refine ⟨htok, ?_⟩
    unfold strContains listContainsSub
    rw [List.any_eq_true]
    refine ⟨m ++ r, ?_, ?_⟩
    · rw [List.mem_tails]
      exact ⟨l, hlr.symm⟩
    · show List.isPrefixOf m (m ++ r) = true
      rw [ List.isPrefixOf_iff_prefix]
      exact List.prefix_append m r

/-!
One lemma per control-flow path of `take_snapshot`, each giving the full
trace and outcome of that path.
-/

/-- Empty (stripped) description: warning dialog only, early return. -/
theorem ts_validation (input : String) (env : Env) (h : pyStrip input = "") :
    take_snapshot input env =
      { events := [Event.warnDialog "Warning"
          "Please enter a description for the snapshot."],
        outcome := Outcome.validationError } := by
  simp only [take_snapshot, if_pos h]

/-- The `snapper create` call exits non-zero. -/
theorem ts_createFail (input : String) (env : Env) (h : ¬ pyStrip input = "")
    (hc : env.createRes.ok = false) :
    take_snapshot input env =
      { events := [Event.setStatus "Creating snapshot...", Event.setEnabled false,
          Event.runCmd (cmdCreate (pyStrip input))] ++
          errorEvents (procErrorMsg env.createRes.stderr),
        outcome := Outcome.processError (procErrorMsg env.createRes.stderr) } := by
  simp only [take_snapshot, if_neg h, if_pos hc]

/-- The create call succeeds but prints a blank snapshot number. -/
theorem ts_numEmpty (input : String) (env : Env) (h : ¬ pyStrip input = "")
    (hc : env.createRes.ok = true) (hn : pyStrip env.createRes.stdout = "") :
    take_snapshot input env =
      { events := [Event.setStatus "Creating snapshot...", Event.setEnabled false,
          Event.runCmd (cmdCreate (pyStrip input))] ++
          errorEvents (genErrorMsg "Failed to get snapshot number"),
        outcome := Outcome.genericError (genErrorMsg "Failed to get snapshot number") } := by
  have hc2 : ¬ env.createRes.ok = false := by simp [hc]
  simp only [take_snapshot, if_neg h, if_neg hc2, if_pos hn]

/-- The `snapper get-config` call exits non-zero. -/
theorem ts_configFail (input : String) (env : Env) (h : ¬ pyStrip input = "")
    (hc : env.createRes.ok = true) (hn : ¬ pyStrip env.createRes.stdout = "")
    (hg : env.configRes.ok = false) :
    take_snapshot input env =
      { events := [Event.setStatus "Creating snapshot...", Event.setEnabled false,
          Event.runCmd (cmdCreate (pyStrip input)), Event.runCmd cmdGetConfig] ++
          errorEvents (procErrorMsg env.configRes.stderr),
        outcome := Outcome.processError (procErrorMsg env.configRes.stderr) } := by
  have hc2 : ¬ env.createRes.ok = false := by simp [hc]
  simp only [take_snapshot, if_neg h, if_neg hc2, if_neg hn, if_pos hg]
  rfl

/-- The configuration table yields no (or a blank) subvolume. -/
theorem ts_subvolEmpty (input : String) (env : Env) (h : ¬ pyStrip input = "")
    (hc : env.createRes.ok = true) (hn : ¬ pyStrip env.createRes.stdout = "")
    (hg : env.configRes.ok = true)
    (hs : (findSubvolume env.configRes.stdout).getD "" = "") :
    take_snapshot input env =
      { events := [Event.setStatus "Creating snapshot...", Event.setEnabled false,
          Event.runCmd (cmdCreate (pyStrip input)), Event.runCmd cmdGetConfig] ++
          errorEvents (genErrorMsg "Failed to get subvolume path"),
        outcome := Outcome.genericError (genErrorMsg "Failed to get subvolume path") } := by
  have hc2 : ¬ env.createRes.ok = false := by simp [hc]
  have hg2 : ¬ env.configRes.ok = false := by simp [hg]
  simp only [take_snapshot, if_neg h, if_neg hc2, if_neg hn, if_neg hg2, if_pos hs]
  rfl

/-- The `snapper list` call exits non-zero. -/
theorem ts_listFail (input : String) (env : Env) (h : ¬ pyStrip input = "")
    (hc : env.createRes.ok = true) (hn : ¬ pyStrip env.createRes.stdout = "")
    (hg : env.configRes.ok = true)
    (hs : ¬ (findSubvolume env.configRes.stdout).getD "" = "")
    (hl : env.listRes.ok = false) :
    take_snapshot input env =
      { events := [Event.setStatus "Creating snapshot...", Event.setEnabled false,
          Event.runCmd (cmdCreate (pyStrip input)), Event.runCmd cmdGetConfig,
          Event.runCmd cmdList] ++
          errorEvents (procErrorMsg env.listRes.stderr),
        outcome := Outcome.processError (procErrorMsg env.listRes.stderr) } := by
  have hc2 : ¬ env.createRes.ok = false := by simp [hc]
  have hg2 : ¬ env.configRes.ok = false := by simp [hg]
  simp only [take_snapshot, if_neg h, if_neg hc2, if_neg hn, if_neg hg2, if_neg hs,
    if_pos hl]
  rfl

/-- All three calls succeed and both parses yield non-blank values. -/
theorem ts_success (input : String) (env : Env) (h : ¬ pyStrip input = "")
    (hc : env.createRes.ok = true) (hn : ¬ pyStrip env.createRes.stdout = "")
    (hg : env.configRes.ok = true)
    (hs : ¬ (findSubvolume env.configRes.stdout).getD "" = "")
    (hl : env.listRes.ok = true) :
    take_snapshot input env =
      { events := [Event.setStatus "Creating snapshot...", Event.setEnabled false,
          Event.runCmd (cmdCreate (pyStrip input)), Event.runCmd cmdGetConfig,
          Event.runCmd cmdList,
          Event.setStatus "Snapshot created successfully",
          Event.infoDialog "Success" (successMsg (pyStrip env.createRes.stdout)
            (findSize (pyStrip env.createRes.stdout) env.listRes.stdout)
            ((findSubvolume env.configRes.stdout).getD "" ++ "/.snapshots/" ++
              pyStrip env.createRes.stdout ++ "/snapshot")),
          Event.clearInput, Event.setEnabled true],
        outcome := Outcome.success (successMsg (pyStrip env.createRes.stdout)
          (findSize (pyStrip env.createRes.stdout) env.listRes.stdout)
          ((findSubvolume env.configRes.stdout).getD "" ++ "/.snapshots/" ++
            pyStrip env.createRes.stdout ++ "/snapshot")) } := by
  have hc2 : ¬ env.createRes.ok = false := by simp [hc]
  have hg2 : ¬ env.configRes.ok = false := by simp [hg]
  have hl2 : ¬ env.listRes.ok = false := by simp [hl]
  simp only [take_snapshot, if_neg h, if_neg hc2, if_neg hn, if_neg hg2, if_neg hs,
    if_neg hl2]
  rfl

/-!
The claims.
-/

/-- C1: for every configuration-table output that contains a well-formed
line (one with the token `SUBVOLUME` that the `│` character splits into at
least two columns), the handler's subvolume extraction returns exactly the
whitespace-trimmed second `│`-delimited column of the first such line. -/
theorem c1_subvolume_extraction (out line : String) (pre post : List String)
    (hsplit : pySplit '\n' out = pre ++ line :: post)
    (hpre : ∀ l ∈ pre, wfConfigLine l = false)
    (hline : wfConfigLine line = true) :
    findSubvolume out = some (pyStrip ((pySplit '│' line).getD 1 "")) := by
  have hl : strContains line "SUBVOLUME" = true ∧ 2 ≤ (pySplit '│' line).length := by
    simpa [wfConfigLine] using hline
  unfold findSubvolume
  rw [hsplit]
  clear hsplit
  induction pre with
  | nil =>
    rw [List.nil_append]
    simp only [findSubvolumeLines, if_pos hl.1, if_pos hl.2]
  | cons p ps ih =>
    have hp := hpre p (List.mem_cons_self p ps)
    rw [List.cons_append]
    by_cases hcp : strContains p "SUBVOLUME" = true
    · have h2 : ¬ (2 ≤ (pySplit '│' p).length) := by
        intro h2
        have hw : wfConfigLine p = true := by simp [wfConfigLine, hcp, h2]
        rw [hp] at hw
        cases hw
      simp only [findSubvolumeLines, if_pos hcp, if_neg h2]
      exact ih (fun l hl2 => hpre l (List.mem_cons_of_mem p hl2))
    · simp only [findSubvolumeLines, if_neg hcp]
      exact ih (fun l hl2 => hpre l (List.mem_cons_of_mem p hl2))

/-- Witness for C1 at a concrete two-line configuration table. -/
theorem c1_subvolume_extraction_witness :
    findSubvolume "ALLOW_USERS│\nSUBVOLUME│ /data │extra" = some "/data" := by
  have h := c1_subvolume_extraction "ALLOW_USERS│\nSUBVOLUME│ /data │extra"
    "SUBVOLUME│ /data │extra" ["ALLOW_USERS│"] [] (by decide) (by decide) (by decide)
  rw [h]
  decide

/-- C2: for a listing-table output whose first row keyed by the snapshot
identifier (stripped row text starting with the identifier) contains a size
token, the handler's size extraction returns exactly the leftmost size
match of that row; the returned token occurs in the row and satisfies the
size-token grammar (digits, optional decimal part, optional whitespace,
optional K/M/G/T/P unit, optional `i`, then `B`). -/
theorem c2_size_extraction (num out line tok : String) (pre post : List String)
    (hsplit : pySplit '\n' out = pre ++ line :: post)
    (hpre : ∀ l ∈ pre, pyStartswith (pyStrip l) num = false)
    (hline : pyStartswith (pyStrip line) num = true)
    (htok : searchSize line = some tok) :
    findSize num out = tok ∧ strContains line tok = true ∧ isSizeToken tok = true := by
  obtain ⟨hgram, hocc⟩ := searchSize_spec htok
  refine ⟨?_, hocc, hgram⟩
  unfold findSize
  rw [hsplit]
  clear hsplit
  induction pre with
  | nil =>
    rw [List.nil_append]
    simp only [findSizeLines, if_pos hline, htok]
  | cons p ps ih =>
    have hp := hpre p (List.mem_cons_self p ps)
    rw [List.cons_append]
    have hp2 : ¬ pyStartswith (pyStrip p) num = true := by
      rw [hp]
      exact (by decide)
    simp only [findSizeLines, if_neg hp2]
    exact ih (fun l hl2 => hpre l (List.mem_cons_of_mem p hl2))

/-- Witness for C2 at a concrete two-line listing table. -/
theorem c2_size_extraction_witness :
    findSize "5" "10 │ single │ 3 GiB\n 5 │ single │ │ 1.28 MiB │ x" = "1.28 MiB" ∧
    strContains " 5 │ single │ │ 1.28 MiB │ x" "1.28 MiB" = true ∧
    isSizeToken "1.28 MiB" = true :=
  c2_size_extraction "5" "10 │ single │ 3 GiB\n 5 │ single │ │ 1.28 MiB │ x"
    " 5 │ single │ │ 1.28 MiB │ x" "1.28 MiB" ["10 │ single │ 3 GiB"] []
    (by decide) (by decide) (by decide) (by decide)

/-- Stripping a string of whitespace characters only yields the empty
string. -/
theorem pyStrip_eq_empty_of_all_space {s : String}
    (h : s.toList.all isPySpace = true) : pyStrip s = "" := by
  unfold pyStrip pyStripList
  have h1 : s.toList.dropWhile isPySpace = [] := by
    rw [List.dropWhile_eq_nil_iff]
    intro x hx
    exact List.all_eq_true.mp h x hx
  rw [h1]
  rfl

/-- C4: an empty description input is rejected with the validation warning
and no external process is invoked. -/
theorem c4_empty_description_rejected (env : Env) :
    (take_snapshot "" env).outcome = Outcome.validationError ∧
    commandsOf (take_snapshot "" env).events = [] := by
  rw [ts_validation "" env rfl]
  exact ⟨rfl, rfl⟩

/-- C8: on every invocation, every external command runs while the button
is disabled, and the handler always terminates with the button enabled
(both on the success path and on every failure path). -/
theorem c8_button_reenabled (input : String) (env : Env) :
    cmdsRunDisabled true (take_snapshot input env).events = true ∧
    finalEnabled true (take_snapshot input env).events = true := by
  by_cases h : pyStrip input = ""
  · rw [ts_validation input env h]
    exact ⟨rfl, rfl⟩
  · cases hc : env.createRes.ok with
    | false =>
      rw [ts_createFail input env h hc]
      exact ⟨rfl, rfl⟩
    | true =>
      by_cases hn : pyStrip env.createRes.stdout = ""
      · rw [ts_numEmpty input env h hc hn]
        exact ⟨rfl, rfl⟩
      · cases hg : env.configRes.ok with
        | false =>
          rw [ts_configFail input env h hc hn hg]
          exact ⟨rfl, rfl⟩
        | true =>
          by_cases hs : (findSubvolume env.configRes.stdout).getD "" = ""
          · rw [ts_subvolEmpty input env h hc hn hg hs]
            exact ⟨rfl, rfl⟩
          · cases hl : env.listRes.ok with
            | false =>
              rw [ts_listFail input env h hc hn hg hs hl]
              exact ⟨rfl, rfl⟩
            | true =>
              rw [ts_success input env h hc hn hg hs hl]
              exact ⟨rfl, rfl⟩

/-- C9: a whitespace-only description strips to empty and is rejected with
the validation warning, no external process being invoked; and whenever
the stripped description is non-empty, the first issued command is the
create command carrying exactly the stripped text. -/
theorem c9_whitespace_only_rejected (input : String) (env : Env) :
    (input.toList.all isPySpace = true →
      (take_snapshot input env).outcome = Outcome.validationError ∧
      commandsOf (take_snapshot input env).events = []) ∧
    (pyStrip input ≠ "" →
      (commandsOf (take_snapshot input env).events).head? =
        some (cmdCreate (pyStrip input))) := by
  constructor
  · intro hsp
    rw [ts_validation input env (pyStrip_eq_empty_of_all_space hsp)]
    exact ⟨rfl, rfl⟩
  · intro h
    cases hc : env.createRes.ok with
    | false =>
      rw [ts_createFail input env h hc]
      rfl
    | true =>
      by_cases hn : pyStrip env.createRes.stdout = ""
      · rw [ts_numEmpty input env h hc hn]
        rfl
      · cases hg : env.configRes.ok with
        | false =>
          rw [ts_configFail input env h hc hn hg]
          rfl
        | true =>
          by_cases hs : (findSubvolume env.configRes.stdout).getD "" = ""
          · rw [ts_subvolEmpty input env h hc hn hg hs]
            rfl
          · cases hl : env.listRes.ok with
            | false =>
              rw [ts_listFail input env h hc hn hg hs hl]
              rfl
            | true =>
              rw [ts_success input env h hc hn hg hs hl]
              rfl

/-- C10: the description field is cleared exactly on the success path: the
final field text is empty when the outcome is a success and is the
original text otherwise, and a clear event occurs in the trace precisely
when the outcome is a success. -/
theorem c10_input_cleared_only_on_success (input : String) (env : Env) :
    finalInput input (take_snapshot input env).events =
      (if ((take_snapshot input env).outcome).isSuccess = true then "" else input) ∧
    (((take_snapshot input env).outcome).isSuccess = true ↔
      Event.clearInput ∈ (take_snapshot input env).events) := by
  by_cases h : pyStrip input = ""
  · rw [ts_validation input env h]
    exact ⟨rfl, by simp [Outcome.isSuccess]⟩
  · cases hc : env.createRes.ok with
    | false =>
      rw [ts_createFail input env h hc]
      exact ⟨rfl, by simp [Outcome.isSuccess, errorEvents]⟩
    | true =>
      by_cases hn : pyStrip env.createRes.stdout = ""
      · rw [ts_numEmpty input env h hc hn]
        exact ⟨rfl, by simp [Outcome.isSuccess, errorEvents]⟩
      · cases hg : env.configRes.ok with
        | false =>
          rw [ts_configFail input env h hc hn hg]
          exact ⟨rfl, by simp [Outcome.isSuccess, errorEvents]⟩
        | true =>
          by_cases hs : (findSubvolume env.configRes.stdout).getD "" = ""
          · rw [ts_subvolEmpty input env h hc hn hg hs]
            exact ⟨rfl, by simp [Outcome.isSuccess, errorEvents]⟩
          · cases hl : env.listRes.ok with
            | false =>
              rw [ts_listFail input env h hc hn hg hs hl]
              exact ⟨rfl, by simp [Outcome.isSuccess, errorEvents]⟩
            | true =>
              rw [ts_success input env h hc hn hg hs hl]
              exact ⟨rfl, by simp [Outcome.isSuccess]⟩

/-- C5: whichever external call is the first to exit non-zero, the handler
ends with a process error whose message carries that call's stderr text
verbatim after the fixed prefix. -/
theorem c5_nonzero_exit_surfaces_stderr (input : String) (env : Env)
    (h : pyStrip input ≠ "") :
    (env.createRes.ok = false →
      (take_snapshot input env).outcome =
        Outcome.processError
          ("Failed to create snapshot. Error: " ++ env.createRes.stderr)) ∧
    (env.createRes.ok = true → pyStrip env.createRes.stdout ≠ "" →
      env.configRes.ok = false →
      (take_snapshot input env).outcome =
        Outcome.processError
          ("Failed to create snapshot. Error: " ++ env.configRes.stderr)) ∧
    (env.createRes.ok = true → pyStrip env.createRes.stdout ≠ "" →
      env.configRes.ok = true → (findSubvolume env.configRes.stdout).getD "" ≠ "" →
      env.listRes.ok = false →
      (take_snapshot input env).outcome =
        Outcome.processError
          ("Failed to create snapshot. Error: " ++ env.listRes.stderr)) := by
  refine ⟨?_, ?_, ?_⟩
  · intro hc
    rw [ts_createFail input env h hc]
    rfl
  · intro hc hn hg
    rw [ts_configFail input env h hc hn hg]
    rfl
  · intro hc hn hg hs hl
    rw [ts_listFail input env h hc hn hg hs hl]
    rfl

/-- Environment for the C5 witness: the create call fails. -/
def envC5 : Env := ⟨⟨false, "", "boom"⟩, ⟨true, "", ""⟩, ⟨true, "", ""⟩⟩

/-- Witness for C5: a failing create call surfaces its stderr. -/
theorem c5_nonzero_exit_surfaces_stderr_witness :
    (take_snapshot "x" envC5).outcome =
      Outcome.processError ("Failed to create snapshot. Error: " ++ "boom") :=
  (c5_nonzero_exit_surfaces_stderr "x" envC5 (by decide)).1 rfl

/-- C6: for every run with a non-empty stripped description, the issued
commands form an in-order prefix of create-with-description, get-config,
list; all three are issued exactly when every earlier step succeeds, and a
failing step prevents the commands after it. -/
theorem c6_commands_in_order (input : String) (env : Env)
    (h : pyStrip input ≠ "") :
    commandsOf (take_snapshot input env).events <+:
      [cmdCreate (pyStrip input), cmdGetConfig, cmdList] ∧
    (env.createRes.ok = false →
      commandsOf (take_snapshot input env).events = [cmdCreate (pyStrip input)]) ∧
    (env.createRes.ok = true → pyStrip env.createRes.stdout = "" →
      commandsOf (take_snapshot input env).events = [cmdCreate (pyStrip input)]) ∧
    (env.createRes.ok = true → pyStrip env.createRes.stdout ≠ "" →
      env.configRes.ok = false →
      commandsOf (take_snapshot input env).events =
        [cmdCreate (pyStrip input), cmdGetConfig]) ∧
    (env.createRes.ok = true → pyStrip env.createRes.stdout ≠ "" →
      env.configRes.ok = true → (findSubvolume env.configRes.stdout).getD "" = "" →
      commandsOf (take_snapshot input env).events =
        [cmdCreate (pyStrip input), cmdGetConfig]) ∧
    (env.createRes.ok = true → pyStrip env.createRes.stdout ≠ "" →
      env.configRes.ok = true → (findSubvolume env.configRes.stdout).getD "" ≠ "" →
      commandsOf (take_snapshot input env).events =
        [cmdCreate (pyStrip input), cmdGetConfig, cmdList]) := by
  refine ⟨?_, ?_, ?_, ?_, ?_, ?_⟩
  · cases hc : env.createRes.ok with
    | false =>
      rw [ts_createFail input env h hc]
      exact ⟨[cmdGetConfig, cmdList], rfl⟩
    | true =>
      by_cases hn : pyStrip env.createRes.stdout = ""
      · rw [ts_numEmpty input env h hc hn]
        exact ⟨[cmdGetConfig, cmdList], rfl⟩
      · cases hg : env.configRes.ok with
        | false =>
          rw [ts_configFail input env h hc hn hg]
          exact ⟨[cmdList], rfl⟩
        | true =>
          by_cases hs : (findSubvolume env.configRes.stdout).getD "" = ""
          · rw [ts_subvolEmpty input env h hc hn hg hs]
            exact ⟨[cmdList], rfl⟩
          · cases hl : env.listRes.ok with
            | false =>
              rw [ts_listFail input env h hc hn hg hs hl]
              exact ⟨[], rfl⟩
            | true =>
              rw [ts_success input env h hc hn hg hs hl]
              exact ⟨[], rfl⟩
  · intro hc
    rw [ts_createFail input env h hc]
    rfl
  · intro hc hn
    rw [ts_numEmpty input env h hc hn]
    rfl
  · intro hc hn hg
    rw [ts_configFail input env h hc hn hg]
    rfl
  · intro hc hn hg hs
    rw [ts_subvolEmpty input env h hc hn hg hs]
    rfl
  · intro hc hn hg hs
    cases hl : env.listRes.ok with
    | false =>
      rw [ts_listFail input env h hc hn hg hs hl]
      rfl
    | true =>
      rw [ts_success input env h hc hn hg hs hl]
      rfl

/-- Environment for the C6 witness: every step succeeds. -/
def envC6 : Env :=
  ⟨⟨true, "5", ""⟩, ⟨true, "SUBVOLUME│ /v │", ""⟩, ⟨true, "", ""⟩⟩

/-- Witness for C6: a fully successful run issues exactly the three
commands in order. -/
theorem c6_commands_in_order_witness :
    commandsOf (take_snapshot "x" envC6).events =
      [cmdCreate (pyStrip "x"), cmdGetConfig, cmdList] :=
  (c6_commands_in_order "x" envC6 (by decide)).2.2.2.2.2 rfl (by decide) rfl (by decide)

/-- C7: every successful run returns the composed summary reporting the
snapshot number, the size, and the location formed as
subvolume ++ "/.snapshots/" ++ identifier ++ "/snapshot". -/
theorem c7_success_summary (input : String) (env : Env) (msg : String)
    (h : (take_snapshot input env).outcome = Outcome.success msg) :
    msg = "Snapshot #" ++ pyStrip env.createRes.stdout ++
      " created successfully!\n\n" ++ "Size: " ++
      findSize (pyStrip env.createRes.stdout) env.listRes.stdout ++
      "\nLocation: " ++ ((findSubvolume env.configRes.stdout).getD "" ++
        "/.snapshots/" ++ pyStrip env.createRes.stdout ++ "/snapshot") := by
  by_cases hv : pyStrip input = ""
  · rw [ts_validation input env hv] at h
    exact absurd h (by simp)
  · cases hc : env.createRes.ok with
    | false =>
      rw [ts_createFail input env hv hc] at h
      exact absurd h (by simp)
    | true =>
      by_cases hn : pyStrip env.createRes.stdout = ""
      · rw [ts_numEmpty input env hv hc hn] at h
        exact absurd h (by simp)
      · cases hg : env.configRes.ok with
        | false =>
          rw [ts_configFail input env hv hc hn hg] at h
          exact absurd h (by simp)
        | true =>
          by_cases hs : (findSubvolume env.configRes.stdout).getD "" = ""
          · rw [ts_subvolEmpty input env hv hc hn hg hs] at h
            exact absurd h (by simp)
          · cases hl : env.listRes.ok with
            | false =>
              rw [ts_listFail input env hv hc hn hg hs hl] at h
              exact absurd h (by simp)
            | true =>
              rw [ts_success input env hv hc hn hg hs hl] at h
              simp only [Outcome.success.injEq] at h
              rw [← h]
              rfl

/-- Environment for the C7 witness: every step succeeds, with a size in
the listing row. -/
def envC7 : Env :=
  ⟨⟨true, "5\n", ""⟩, ⟨true, "SUBVOLUME│ /data │", ""⟩,
   ⟨true, " 5 │ 2.5 GiB", ""⟩⟩

/-- Witness for C7 at a concrete successful run. -/
theorem c7_success_summary_witness :
    "Snapshot #5 created successfully!\n\nSize: 2.5 GiB\nLocation: /data/.snapshots/5/snapshot" =
      "Snapshot #" ++ pyStrip (envC7.createRes.stdout) ++
      " created successfully!\n\n" ++ "Size: " ++
      findSize (pyStrip envC7.createRes.stdout) envC7.listRes.stdout ++
      "\nLocation: " ++ ((findSubvolume envC7.configRes.stdout).getD "" ++
        "/.snapshots/" ++ pyStrip envC7.createRes.stdout ++ "/snapshot") :=
  c7_success_summary "x" envC7
    "Snapshot #5 created successfully!\n\nSize: 2.5 GiB\nLocation: /data/.snapshots/5/snapshot"
    (by decide)

/-- Environment refuting C3 as stated: every call succeeds, the listing
row keyed by the identifier carries no size token. -/
def envC3 : Env :=
  ⟨⟨true, "5\n", ""⟩, ⟨true, "SUBVOLUME│ /rootvol │", ""⟩,
   ⟨true, " 5 │ single │ no size here", ""⟩⟩

/-- Counterexample to C3 as stated: when the listing row keyed by the
identifier yields no size token, the handler does not fail with a
missing-field error — it returns a success summary reporting the size as
Unknown. -/
theorem c3_missing_size_still_succeeds :
    findSize "5" " 5 │ single │ no size here" = "Unknown" ∧
    (take_snapshot "my snap" envC3).outcome =
      Outcome.success
        "Snapshot #5 created successfully!\n\nSize: Unknown\nLocation: /rootvol/.snapshots/5/snapshot" := by
  constructor
  · decide
  · decide

/-- C3 amended: a blank identifier from the create command and a missing
(or blank) subvolume from the configuration table each abort the run with
a missing-field error, but an absent size token does not fail the run: the
handler returns the success summary with the size reported as Unknown. -/
theorem c3_missing_field_amended (input : String) (env : Env)
    (h : pyStrip input ≠ "") :
    (env.createRes.ok = true → pyStrip env.createRes.stdout = "" →
      (take_snapshot input env).outcome =
        Outcome.genericError
          "An unexpected error occurred: Failed to get snapshot number") ∧
    (env.createRes.ok = true → pyStrip env.createRes.stdout ≠ "" →
      env.configRes.ok = true → (findSubvolume env.configRes.stdout).getD "" = "" →
      (take_snapshot input env).outcome =
        Outcome.genericError
          "An unexpected error occurred: Failed to get subvolume path") ∧
    (env.createRes.ok = true → pyStrip env.createRes.stdout ≠ "" →
      env.configRes.ok = true → (findSubvolume env.configRes.stdout).getD "" ≠ "" →
      env.listRes.ok = true →
      findSize (pyStrip env.createRes.stdout) env.listRes.stdout = "Unknown" →
      (take_snapshot input env).outcome =
        Outcome.success (successMsg (pyStrip env.createRes.stdout) "Unknown"
          ((findSubvolume env.configRes.stdout).getD "" ++ "/.snapshots/" ++
            pyStrip env.createRes.stdout ++ "/snapshot"))) := by
  refine ⟨?_, ?_, ?_⟩
  · intro hc hn
    rw [ts_numEmpty input env h hc hn]
    rfl
  · intro hc hn hg hs
    rw [ts_subvolEmpty input env h hc hn hg hs]
    rfl
  · intro hc hn hg hs hl hu
    rw [ts_success input env h hc hn hg hs hl, hu]

/-- Environment for the first C3 conjunct: blank snapshot number. -/
def envC3num : Env := ⟨⟨true, "  ", ""⟩, ⟨true, "", ""⟩, ⟨true, "", ""⟩⟩

/-- Environment for the second C3 conjunct: no subvolume line. -/
def envC3sub : Env := ⟨⟨true, "7", ""⟩, ⟨true, "no such line", ""⟩, ⟨true, "", ""⟩⟩

/-- Environment for the third C3 conjunct: all calls succeed, no size. -/
def envC3ok : Env :=
  ⟨⟨true, "7", ""⟩, ⟨true, "SUBVOLUME│ /v │", ""⟩, ⟨true, "", ""⟩⟩

/-- Witness for the amended C3 at three concrete environments. -/
theorem c3_missing_field_amended_witness :
    (take_snapshot "d" envC3num).outcome =
      Outcome.genericError
        "An unexpected error occurred: Failed to get snapshot number" ∧
    (take_snapshot "d" envC3sub).outcome =
      Outcome.genericError
        "An unexpected error occurred: Failed to get subvolume path" ∧
    (take_snapshot "d" envC3ok).outcome =
      Outcome.success
        "Snapshot #7 created successfully!\n\nSize: Unknown\nLocation: /v/.snapshots/7/snapshot" :=
  ⟨(c3_missing_field_amended "d" envC3num (by decide)).1 rfl (by decide),
   (c3_missing_field_amended "d" envC3sub (by decide)).2.1 rfl (by decide) rfl (by decide),
   by
    rw [(c3_missing_field_amended "d" envC3ok (by decide)).2.2 rfl (by decide) rfl
      (by decide) rfl (by decide)]
    decide⟩

end SnapIt
